import Mathlib

/-!
Verification of the Aldes API client (custom_components/aldes): a shallow
embedding of api.py, entity.py and coordinator.py.  Python dynamic values are
modelled by an inductive type PyVal, Python exceptions by PyErr, and fallible
code by Except.  HTTP traffic is abstracted as outcome parameters: each
request the code issues consumes one abstract outcome describing what the
network returned (a status plus a parse result, or a raised exception).
-/

namespace Aldes

/-- Python values as they occur in this client: None, bool, int, str, list
and dict (with string keys, as produced by JSON parsing).  Floats in the
payload play no computational role in the embedded fragment and are not
separated from ints. -/
inductive PyVal where
  | pynone : PyVal
  | pybool : Bool → PyVal
  | pyint : Int → PyVal
  | pystr : String → PyVal
  | pylist : List PyVal → PyVal
  | pydict : List (String × PyVal) → PyVal

/-- Python exceptions raised by the embedded fragment.  clientError covers
aiohttp.ClientError and its subclasses; updateFailed is homeassistant
UpdateFailed wrapping its cause. -/
inductive PyErr where
  | keyError : String → PyErr
  | valueError : PyErr
  | typeError : PyErr
  | clientError : String → PyErr
  | timeoutError : PyErr
  | authenticationError : String → PyErr
  | updateFailed : PyErr → PyErr
  | otherError : PyErr
deriving DecidableEq, Repr

/-- Python truthiness for the modelled values: None and empty
strings/collections are falsy, ints are falsy exactly at 0. -/
def PyVal.truthy : PyVal → Bool
  | .pynone => false
  | .pybool b => b
  | .pyint n => n != 0
  | .pystr s => !s.isEmpty
  | .pylist xs => !xs.isEmpty
  | .pydict kvs => !kvs.isEmpty

/-- First binding of a key in an association list (Python dict lookup). -/
def lookupKey : List (String × PyVal) → String → Option PyVal
  | [], _ => Option.none
  | (k, v) :: rest, key => if k = key then some v else lookupKey rest key

/-- Python subscript v[key]: KeyError when a dict lacks the key, TypeError
when the value is not subscriptable by a string. -/
def PyVal.index (v : PyVal) (key : String) : Except PyErr PyVal :=
  match v with
  | .pydict kvs =>
    match lookupKey kvs key with
    | some x => Except.ok x
    | Option.none => Except.error (PyErr.keyError key)
  | _ => Except.error PyErr.typeError

/-- entity.py SettingsApiEntity: each field is data[key] when data is truthy
and None otherwise. -/
structure SettingsApiEntity where
  people : PyVal
  antilegio : PyVal

def SettingsApiEntity.build (data : PyVal) : Except PyErr SettingsApiEntity := do
  let people ← if data.truthy then data.index "people" else pure PyVal.pynone
  let antilegio ← if data.truthy then data.index "antilegio" else pure PyVal.pynone
  pure ⟨people, antilegio⟩

/-- entity.py ThermostatApiEntity: five mandatory keys, no defaulting. -/
structure ThermostatApiEntity where
  id : PyVal
  name : PyVal
  number : PyVal
  temperature_set : PyVal
  current_temperature : PyVal

def ThermostatApiEntity.build (data : PyVal) : Except PyErr ThermostatApiEntity := do
  let i ← data.index "ThermostatId"
  let n ← data.index "Name"
  let num ← data.index "Number"
  let ts ← data.index "TemperatureSet"
  let ct ← data.index "CurrentTemperature"
  pure ⟨i, n, num, ts, ct⟩

/-- Python iteration over the value of the thermostats key: lists yield their
elements, dicts their keys, strings their one-character substrings; anything
else raises TypeError. -/
def iterPy : PyVal → Except PyErr (List PyVal)
  | .pylist xs => Except.ok xs
  | .pydict kvs => Except.ok (kvs.map fun kv => PyVal.pystr kv.1)
  | .pystr s => Except.ok (s.toList.map fun c => PyVal.pystr (String.singleton c))
  | _ => Except.error PyErr.typeError

def buildThermostats (v : PyVal) : Except PyErr (List ThermostatApiEntity) := do
  let xs ← iterPy v
  xs.mapM ThermostatApiEntity.build

/-- AirMode.OFF in const.py is the string enum member "A". -/
def airModeOff : PyVal := PyVal.pystr "A"

/-- WaterMode.OFF in const.py is the string enum member "L". -/
def waterModeOff : PyVal := PyVal.pystr "L"

/-- entity.py IndicatorApiEntity.  The thermostats attribute is assigned only
inside the `if data:` block of __init__, so it is modelled as an Option: it is
some list exactly when the payload was truthy, and absent (attribute unset,
reading it raises AttributeError) otherwise. -/
structure IndicatorApiEntity where
  fmist : PyVal
  fmast : PyVal
  cmast : PyVal
  cmist : PyVal
  hot_water_quantity : PyVal
  main_temperature : PyVal
  current_air_mode : PyVal
  current_water_mode : PyVal
  settings : SettingsApiEntity
  thermostats : Option (List ThermostatApiEntity)

def IndicatorApiEntity.build (data : PyVal) : Except PyErr IndicatorApiEntity := do
  let fmist ← if data.truthy then data.index "fmist" else pure (PyVal.pyint 0)
  let fmast ← if data.truthy then data.index "fmast" else pure (PyVal.pyint 0)
  let cmast ← if data.truthy then data.index "cmast" else pure (PyVal.pyint 0)
  let cmist ← if data.truthy then data.index "cmist" else pure (PyVal.pyint 0)
  let hwq ← if data.truthy then data.index "qte_eau_chaude" else pure (PyVal.pyint 0)
  let mt ← if data.truthy then data.index "tmp_principal" else pure (PyVal.pyint 0)
  let cam ← if data.truthy then data.index "current_air_mode" else pure airModeOff
  let cwm ← if data.truthy then data.index "current_water_mode" else pure waterModeOff
  let settingsArg ← if data.truthy then data.index "settings" else pure PyVal.pynone
  let settings ← SettingsApiEntity.build settingsArg
  let thermostats ←
    if data.truthy then do
      let tv ← data.index "thermostats"
      let ts ← buildThermostats tv
      pure (some ts)
    else
      pure Option.none
  pure ⟨fmist, fmast, cmast, cmist, hwq, mt, cam, cwm, settings, thermostats⟩

/-- entity.py DataApiEntity: the published device snapshot. -/
structure DataApiEntity where
  indicator : IndicatorApiEntity
  last_updated_date : PyVal
  modem : PyVal
  reference : PyVal
  serial_number : PyVal
  type : PyVal
  filter_wear : PyVal
  date_last_filter_update : PyVal
  has_filter : PyVal
  is_connected : PyVal
  week_planning : PyVal
  week_planning2 : PyVal
  week_planning3 : PyVal
  week_planning4 : PyVal

def DataApiEntity.build (data : PyVal) : Except PyErr DataApiEntity := do
  let indicatorArg ← if data.truthy then data.index "indicator" else pure PyVal.pynone
  let indicator ← IndicatorApiEntity.build indicatorArg
  let lud ← if data.truthy then data.index "lastUpdatedDate" else pure (PyVal.pystr "")
  let modem ← if data.truthy then data.index "modem" else pure (PyVal.pystr "")
  let reference ← if data.truthy then data.index "reference" else pure (PyVal.pystr "")
  let sn ← if data.truthy then data.index "serial_number" else pure (PyVal.pystr "")
  let ty ← if data.truthy then data.index "type" else pure (PyVal.pystr "")
  let fw ← if data.truthy then data.index "usureFiltre" else pure (PyVal.pybool false)
  let dlfu ← if data.truthy then data.index "dateLastFilterUpdate" else pure (PyVal.pystr "")
  let hf ← if data.truthy then data.index "hasFilter" else pure (PyVal.pybool false)
  let ic ← if data.truthy then data.index "isConnected" else pure (PyVal.pybool false)
  let wp1 ← if data.truthy then data.index "week_planning" else pure (PyVal.pylist [])
  let wp2 ← if data.truthy then data.index "week_planning2" else pure (PyVal.pylist [])
  let wp3 ← if data.truthy then data.index "week_planning3" else pure (PyVal.pylist [])
  let wp4 ← if data.truthy then data.index "week_planning4" else pure (PyVal.pylist [])
  pure ⟨indicator, lud, modem, reference, sn, ty, fw, dlfu, hf, ic, wp1, wp2, wp3, wp4⟩

/-- The snapshot produced from a falsy payload: every field takes its
declared default; the thermostats attribute is never assigned. -/
def emptySnapshot : DataApiEntity :=
  ⟨⟨PyVal.pyint 0, PyVal.pyint 0, PyVal.pyint 0, PyVal.pyint 0, PyVal.pyint 0,
    PyVal.pyint 0, airModeOff, waterModeOff, ⟨PyVal.pynone, PyVal.pynone⟩, Option.none⟩,
   PyVal.pystr "", PyVal.pystr "", PyVal.pystr "", PyVal.pystr "", PyVal.pystr "",
   PyVal.pybool false, PyVal.pystr "", PyVal.pybool false, PyVal.pybool false,
   PyVal.pylist [], PyVal.pylist [], PyVal.pylist [], PyVal.pylist []⟩

example : DataApiEntity.build PyVal.pynone = Except.ok emptySnapshot := rfl

example : DataApiEntity.build (PyVal.pydict []) = Except.ok emptySnapshot := rfl

/-! api.py: resilient request layer -/

/-- The emergency cache of api.py, keyed by the string method:url.  The
companion timestamp dict is recorded for logging only and never read for
control flow, so it is not modelled. -/
abbrev Cache := List (String × PyVal)

/-- Python dict assignment cache[key] = v. -/
def storeKey : Cache → String → PyVal → Cache
  | [], key, v => [(key, v)]
  | (k, w) :: rest, key, v =>
    if k = key then (k, v) :: rest else (k, w) :: storeKey rest key v

/-- What one HTTP exchange inside _api_request produced: a response with a
status and the result of parsing its JSON body, or an exception raised before
a response existed (network failure, timeout, or an AuthenticationError from
the re-authentication inside the interceptor). -/
inductive HttpOutcome where
  | response : Nat → Except PyErr PyVal → HttpOutcome
  | raised : PyErr → HttpOutcome

/-- A call fails unless it is a status-200 response whose body parsed. -/
def HttpOutcome.fails : HttpOutcome → Bool
  | .response status (Except.ok _) => status != 200
  | .response _ (Except.error _) => true
  | .raised _ => true

/-- The normalisation at the end of the except block of _api_request:
KeyError and ValueError are re-raised as ClientError, everything else is
re-raised unchanged. -/
def wrapParseErr : PyErr → PyErr
  | .keyError _ => PyErr.clientError "Invalid API response"
  | .valueError => PyErr.clientError "Invalid API response"
  | e => e

/-- The except-block of _api_request: if the cache holds the key, return the
cached body (whatever the error and whatever the entry age); otherwise
normalise parse errors and propagate. -/
def cacheFallback (cache : Cache) (key : String) (e : PyErr) :
    Except PyErr PyVal × Cache :=
  match lookupKey cache key with
  | some v => (Except.ok v, cache)
  | Option.none => (Except.error (wrapParseErr e), cache)

/-- One undecorated body of _api_request: on a 200 response with a parsed
body, store it in the cache and return it; on any other status raise
ClientError; on any exception fall back to the cache. -/
def api_request_once (cache : Cache) (key : String) (o : HttpOutcome) :
    Except PyErr PyVal × Cache :=
  match o with
  | .raised e => cacheFallback cache key e
  | .response status body =>
    if status = 200 then
      match body with
      | Except.ok d => (Except.ok d, storeKey cache key d)
      | Except.error e => cacheFallback cache key e
    else
      cacheFallback cache key (PyErr.clientError "API request failed with status")

/-- The exception classes the backoff decorator retries on:
(ClientError, TimeoutError). -/
def retriedErr : PyErr → Bool
  | .clientError _ => true
  | .timeoutError => true
  | _ => false

/-- The backoff.on_exception wrapper with max_tries = 3: run the body; when
it raises a retried error and tries remain, run it again on the next outcome.
The expo delays (1s, 2s) stay far below max_time = 60, so within the embedded
fragment max_tries is the binding ceiling.  Returns the result, the final
cache, and the number of attempts made. -/
def backoffRun (key : String) (outs : Nat → HttpOutcome) (cache : Cache)
    (i : Nat) : Nat → Except PyErr PyVal × Cache × Nat
  | 0 => (Except.error (PyErr.clientError "no tries"), cache, 0)
  | Nat.succ t =>
    match api_request_once cache key (outs i) with
    | (Except.ok v, c2) => (Except.ok v, c2, 1)
    | (Except.error e, c2) =>
      if retriedErr e && t != 0 then
        match backoffRun key outs c2 (i + 1) t with
        | (r, c3, n) => (r, c3, n + 1)
      else
        (Except.error e, c2, 1)

/-- The decorated _api_request as callers see it: up to 3 attempts. -/
def api_request (key : String) (outs : Nat → HttpOutcome) (cache : Cache) :
    Except PyErr PyVal × Cache × Nat :=
  backoffRun key outs cache 0 3

/-! api.py: fetch_data -/

/-- True for the exception classes caught by fetch_data, get_statistics and
authenticate: (ClientError, TimeoutError). -/
def caughtNetErr : PyErr → Bool := retriedErr

def PyVal.isList : PyVal → Bool
  | .pylist _ => true
  | _ => false

def PyVal.isDict : PyVal → Bool
  | .pydict _ => true
  | _ => false

/-- fetch_data as a function of the _api_request result: ClientError and
TimeoutError become None; a non-empty list whose first element is a dict is
passed to DataApiEntity (whose KeyErrors propagate uncaught); everything else
is None. -/
def fetch_data (r : Except PyErr PyVal) : Except PyErr (Option DataApiEntity) :=
  match r with
  | Except.error e =>
    if caughtNetErr e then Except.ok Option.none else Except.error e
  | Except.ok data =>
    match data with
    | PyVal.pylist (first :: _) =>
      match first with
      | PyVal.pydict kvs => (DataApiEntity.build (PyVal.pydict kvs)).map some
      | _ => Except.ok Option.none
    | _ => Except.ok Option.none

/-! api.py: temperature queue worker -/

/-- REQUEST_DELAY in api.py: seconds slept between queued commands. -/
def REQUEST_DELAY : Nat := 5

/-- One item of queue_target_temperature:
(modem, thermostat_id, thermostat_name, temperature). -/
structure CommandItem where
  modem : String
  thermostat_id : Int
  thermostat_name : String
  temperature : PyVal

/-- The truthiness test of the worker:
`if modem and thermostat_id and thermostat_name and temperature`. -/
def itemTruthy (it : CommandItem) : Bool :=
  it.modem != "" && it.thermostat_id != 0 &&
    it.thermostat_name != "" && it.temperature.truthy

/-- The HTTP call change_temperature issues for one accepted item. -/
structure WorkerCall where
  modem : String
  thermostat_id : Int
  thermostat_name : String
  temperature : PyVal

def itemCall (it : CommandItem) : WorkerCall :=
  ⟨it.modem, it.thermostat_id, it.thermostat_name, it.temperature⟩

/-- Trace semantics of the single _temperature_worker task draining the FIFO
queue: items is the queue content in enqueue order, durs the wall-clock
duration of each issued HTTP call, t the current time in seconds.  An
accepted item is called at the current time, then the worker sleeps
REQUEST_DELAY after the call returns; a falsy item is dropped with no call
and no sleep.  The result is the list of issued calls with their start
times. -/
def temperature_worker : List CommandItem → List Nat → Nat →
    List (WorkerCall × Nat)
  | [], _, _ => []
  | it :: rest, durs, t =>
    if itemTruthy it then
      (itemCall it, t) ::
        temperature_worker rest durs.tail (t + durs.headD 0 + REQUEST_DELAY)
    else
      temperature_worker rest durs t

/-! api.py: auth interceptor and authenticate -/

/-- An HTTP response as the interceptor sees it: a status plus a tag letting
distinct responses be told apart. -/
structure Resp where
  status : Nat
  tag : Nat
deriving DecidableEq, Repr

/-- _request_with_auth_interceptor: issue the request; on a 401 close the
response, re-authenticate once and issue the request exactly once more,
returning that second response as-is.  The model takes the two possible
responses and the outcome of authenticate, and returns the result together
with (number of authenticate calls, number of requests issued). -/
def request_with_auth_interceptor (r1 r2 : Resp) (auth : Except PyErr Unit) :
    Except PyErr Resp × Nat × Nat :=
  if r1.status = 401 then
    match auth with
    | Except.ok _ => (Except.ok r2, 1, 2)
    | Except.error e => (Except.error e, 1, 1)
  else
    (Except.ok r1, 0, 1)

/-- What the token-endpoint exchange produced: a response with a status and
the parse result of its JSON body, or a raised network error
(true = TimeoutError, false = ClientError). -/
inductive AuthOutcome where
  | response : Nat → Except PyErr PyVal → AuthOutcome
  | network : Bool → AuthOutcome

/-- authenticate: POST the credentials; parse the body (aiohttp json() parse
failures raise ClientError subclasses); on 200 store json of access_token as
the new token; on any other status raise AuthenticationError; ClientError and
TimeoutError become AuthenticationError.  A 200 body without the key raises
KeyError, uncaught.  Returns the outcome and the token after the call. -/
def authenticate (token : PyVal) (o : AuthOutcome) : Except PyErr Unit × PyVal :=
  match o with
  | .network _ =>
    (Except.error (PyErr.authenticationError "Authentication request failed"), token)
  | .response status jsonRes =>
    match jsonRes with
    | Except.error e =>
      if caughtNetErr e then
        (Except.error (PyErr.authenticationError "Authentication request failed"), token)
      else
        (Except.error e, token)
    | Except.ok j =>
      if status = 200 then
        match j.index "access_token" with
        | Except.ok t => (Except.ok (), t)
        | Except.error e => (Except.error e, token)
      else
        (Except.error (PyErr.authenticationError "Authentication failed with status"), token)

/-! coordinator.py: _async_update_data -/

/-- What one call to fetch_data produced from the point of view of the
coordinator: a returned value (a snapshot or None) or a raised exception
(including the async timeout). -/
inductive FetchOutcome where
  | fetched : Option DataApiEntity → FetchOutcome
  | raised : PyErr → FetchOutcome

/-- _async_update_data: on skip, clear the flag and return the previous data
(None when absent).  Otherwise: a None result with previous data keeps the
previous data; an exception keeps the previous data when present and raises
UpdateFailed only when none exists.  Returns the delivered result and the
skip flag after the tick.  prev is the previous snapshot when the data
attribute is set and truthy (snapshot objects are always truthy). -/
def coordinator_update (skip : Bool) (prev : Option DataApiEntity)
    (f : FetchOutcome) : Except PyErr (Option DataApiEntity) × Bool :=
  if skip then
    (Except.ok prev, false)
  else
    match f with
    | .fetched d =>
      match d, prev with
      | Option.none, some p => (Except.ok (some p), false)
      | _, _ => (Except.ok d, false)
    | .raised e =>
      match prev with
      | some p => (Except.ok (some p), false)
      | Option.none => (Except.error (PyErr.updateFailed e), false)

/-- True exactly when the tick surfaced a hard update failure to the host
framework. -/
def isUpdateFailed (r : Except PyErr (Option DataApiEntity)) : Bool :=
  match r with
  | Except.error _ => true
  | Except.ok _ => false

/-! api.py: set_kwh_prices -/

/-- Python int() applied to a number: truncation toward zero.  Prices are
modelled as exact rationals; at the inputs considered here the IEEE double
computation of price * 1000 truncates to the same integers. -/
def pyTrunc (q : ℚ) : Int :=
  if q < 0 then -Int.floor (-q) else Int.floor q

/-- The command parameter built by set_kwh_prices:
int(price * 1000) for both prices, formatted as P..C.. -/
def set_kwh_prices_param (kwh_pleine kwh_creuse : ℚ) : String :=
  "P" ++ toString (pyTrunc (kwh_pleine * 1000)) ++
    "C" ++ toString (pyTrunc (kwh_creuse * 1000))

/-- Modelled from the spec words, for comparison only: the spec describes the
conversion as round(price * 1000) instead of the int() truncation the code
performs. -/
def set_kwh_prices_param_roundSpec (kwh_pleine kwh_creuse : ℚ) : String :=
  "P" ++ toString (round (kwh_pleine * 1000)) ++
    "C" ++ toString (round (kwh_creuse * 1000))

/-! Theorems -/

/-- The thermostats attribute of the snapshot built from a given payload:
some-some list when the build succeeded and the attribute was assigned,
some-none when the build succeeded with the attribute left unset, none when
the build raised. -/
def builtThermostats (v : PyVal) : Option (Option (List ThermostatApiEntity)) :=
  match DataApiEntity.build v with
  | Except.ok d => some d.indicator.thermostats
  | Except.error _ => Option.none

/-- Claim C3 counterexample: building the snapshot from a None payload leaves
the thermostats attribute of the Indicator unset (reading it raises
AttributeError), so the snapshot does not carry an empty, readable thermostat
list as the claim states. -/
theorem C3_counterexample :
    builtThermostats PyVal.pynone = some Option.none ∧
    builtThermostats PyVal.pynone ≠ some (some ([] : List ThermostatApiEntity)) := by
  constructor
  · rfl
  · intro h
    have h2 : (Option.none : Option (List ThermostatApiEntity)) =
        some ([] : List ThermostatApiEntity) := Option.some.inj h
    exact Option.noConfusion h2

/-- Claim C3 (amended): building a snapshot from a None or empty payload
never raises and yields the defaulted snapshot: is_connected False, empty
collections, zero numeric fields, off air/water modes, None settings fields;
however the thermostats attribute of the Indicator is never assigned for a
falsy payload, so it is not readable by consumers. -/
theorem C3_null_snapshot_defaults :
    DataApiEntity.build PyVal.pynone = Except.ok emptySnapshot ∧
    DataApiEntity.build (PyVal.pydict []) = Except.ok emptySnapshot ∧
    emptySnapshot.is_connected = PyVal.pybool false ∧
    emptySnapshot.indicator.current_air_mode = airModeOff ∧
    emptySnapshot.indicator.current_water_mode = waterModeOff ∧
    emptySnapshot.indicator.fmist = PyVal.pyint 0 ∧
    emptySnapshot.indicator.hot_water_quantity = PyVal.pyint 0 ∧
    emptySnapshot.week_planning = PyVal.pylist [] ∧
    emptySnapshot.indicator.settings.people = PyVal.pynone ∧
    emptySnapshot.indicator.thermostats = Option.none :=
  ⟨rfl, rfl, rfl, rfl, rfl, rfl, rfl, rfl, rfl, rfl⟩

/-- Claim C5 counterexample: a products body whose first element is a
non-empty dict missing the expected keys makes fetch_data raise KeyError
rather than return None. -/
theorem C5_counterexample :
    fetch_data (Except.ok (PyVal.pylist [PyVal.pydict [("foo", PyVal.pynone)]])) =
      Except.error (PyErr.keyError "indicator") := rfl

/-- Claim C5 (amended): fetch_data returns None for a caught network error,
an empty-list body, a non-list body, and a non-dict first element; but a
first element that is an empty dict yields the defaulted snapshot rather than
None, and a first element that is a non-empty dict missing the expected keys
raises KeyError rather than returning None. -/
theorem C5_fetch_data_amended (e : PyErr) (v w : PyVal) (rest : List PyVal)
    (k : String) (u : PyVal)
    (he : caughtNetErr e = true) (hv : v.isList = false) (hw : w.isDict = false)
    (hk : k ≠ "indicator") :
    fetch_data (Except.error e) = Except.ok Option.none ∧
    fetch_data (Except.ok (PyVal.pylist [])) = Except.ok Option.none ∧
    fetch_data (Except.ok v) = Except.ok Option.none ∧
    fetch_data (Except.ok (PyVal.pylist (w :: rest))) = Except.ok Option.none ∧
    fetch_data (Except.ok (PyVal.pylist (PyVal.pydict [] :: rest))) =
      Except.ok (some emptySnapshot) ∧
    fetch_data (Except.ok (PyVal.pylist (PyVal.pydict [(k, u)] :: rest))) =
      Except.error (PyErr.keyError "indicator") := by
  refine ⟨?_, rfl, ?_, ?_, rfl, ?_⟩
  · simp [fetch_data, he]
  · cases v <;> first
      | rfl
      | exact absurd hv (by simp [PyVal.isList])
  · cases w <;> first
      | rfl
      | exact absurd hw (by simp [PyVal.isDict])
  · simp [fetch_data, DataApiEntity.build, PyVal.truthy, PyVal.index, lookupKey,
      hk, Except.map, Bind.bind, Except.bind]

/-- Claim C5 witness: the amended statement at concrete inputs. -/
theorem C5_fetch_data_amended_witness :
    fetch_data (Except.error PyErr.timeoutError) = Except.ok Option.none :=
  (C5_fetch_data_amended PyErr.timeoutError (PyVal.pydict []) (PyVal.pystr "x")
    [] "foo" PyVal.pynone rfl rfl rfl (by decide)).1

/-- Claim C4 counterexample: when no previous snapshot exists and fetch_data
returns None, the coordinator returns None as a successful update instead of
surfacing a hard update-failed condition. -/
theorem C4_counterexample :
    coordinator_update false Option.none (FetchOutcome.fetched Option.none) =
      (Except.ok Option.none, false) ∧
    isUpdateFailed (coordinator_update false Option.none
      (FetchOutcome.fetched Option.none)).1 = false :=
  ⟨rfl, rfl⟩

/-- Claim C4 (amended): with a previous snapshot, a None result or a raising
fetch keeps the previous snapshot unchanged and a fresh snapshot replaces it;
without a previous snapshot, a raising fetch propagates as UpdateFailed while
a None result is returned as None (a successful empty update), not as an
update failure. -/
theorem C4_coordinator_amended (p d : DataApiEntity) (e : PyErr) :
    coordinator_update false (some p) (FetchOutcome.fetched Option.none) =
      (Except.ok (some p), false) ∧
    coordinator_update false (some p) (FetchOutcome.raised e) =
      (Except.ok (some p), false) ∧
    coordinator_update false (some p) (FetchOutcome.fetched (some d)) =
      (Except.ok (some d), false) ∧
    coordinator_update false Option.none (FetchOutcome.raised e) =
      (Except.error (PyErr.updateFailed e), false) ∧
    coordinator_update false Option.none (FetchOutcome.fetched Option.none) =
      (Except.ok Option.none, false) :=
  ⟨rfl, rfl, rfl, rfl, rfl⟩

lemma pyTrunc_pleine : pyTrunc ((1897 : ℚ) / 10000 * 1000) = 189 := by
  have e1 : ((1897 : ℚ) / 10000 * 1000) = 1897 / 10 := by norm_num
  rw [e1]
  simp only [pyTrunc]
  rw [if_neg (by norm_num : ¬ ((1897 : ℚ) / 10 < 0)), Int.floor_eq_iff]
  norm_num

lemma pyTrunc_creuse : pyTrunc ((1423 : ℚ) / 10000 * 1000) = 142 := by
  have e1 : ((1423 : ℚ) / 10000 * 1000) = 1423 / 10 := by norm_num
  rw [e1]
  simp only [pyTrunc]
  rw [if_neg (by norm_num : ¬ ((1423 : ℚ) / 10 < 0)), Int.floor_eq_iff]
  norm_num

lemma roundSpec_pleine : round ((1897 : ℚ) / 10000 * 1000) = 190 := by
  have e1 : ((1897 : ℚ) / 10000 * 1000) = 1897 / 10 := by norm_num
  rw [e1, round_eq, Int.floor_eq_iff]
  norm_num

lemma roundSpec_creuse : round ((1423 : ℚ) / 10000 * 1000) = 142 := by
  have e1 : ((1423 : ℚ) / 10000 * 1000) = 1423 / 10 := by norm_num
  rw [e1, round_eq, Int.floor_eq_iff]
  norm_num

/-- Claim C8 counterexample: at the inputs of Scenario D, the code (int
truncation) produces P189C142 while the round conversion stated by the claim
would produce P190C142, so the claimed round mechanism contradicts the
claimed output. -/
theorem C8_counterexample :
    set_kwh_prices_param (1897 / 10000) (1423 / 10000) = "P189C142" ∧
    set_kwh_prices_param_roundSpec (1897 / 10000) (1423 / 10000) = "P190C142" ∧
    ("P189C142" : String) ≠ "P190C142" := by
  refine ⟨?_, ?_, by decide⟩
  · simp only [set_kwh_prices_param, pyTrunc_pleine, pyTrunc_creuse]
    decide
  · simp only [set_kwh_prices_param_roundSpec, roundSpec_pleine, roundSpec_creuse]
    decide

/-- Claim C8 (amended): set_kwh_prices converts the prices to milli-euro
units with int(price * 1000), truncating toward zero, and at
(0.1897, 0.1423) the parameter string is exactly P189C142. -/
theorem C8_kwh_prices_truncation :
    set_kwh_prices_param (1897 / 10000) (1423 / 10000) = "P189C142" ∧
    pyTrunc ((1897 : ℚ) / 10000 * 1000) = 189 ∧
    pyTrunc ((1423 : ℚ) / 10000 * 1000) = 142 := by
  refine ⟨?_, pyTrunc_pleine, pyTrunc_creuse⟩
  simp only [set_kwh_prices_param, pyTrunc_pleine, pyTrunc_creuse]
  decide

lemma api_request_once_fails_cached (cache : Cache) (key : String)
    (o : HttpOutcome) (v : PyVal) (hc : lookupKey cache key = some v)
    (hf : o.fails = true) : api_request_once cache key o = (Except.ok v, cache) := by
  cases o with
  | raised e => simp [api_request_once, cacheFallback, hc]
  | response status body =>
    cases body with
    | ok d =>
      have hs : ¬ status = 200 := by
        intro h
        rw [h] at hf
        simp [HttpOutcome.fails] at hf
      simp [api_request_once, hs, cacheFallback, hc]
    | error e =>
      by_cases hs : status = 200 <;>
        simp [api_request_once, hs, cacheFallback, hc]

/-- Claim C1: once a successful response body is cached for the method:url
key, a later _api_request call for the same key whose fresh attempt fails for
any reason (network error, timeout, non-200 status, or a body parse failure)
returns the cached body without raising, on the first attempt, with the cache
unchanged.  Timestamps never influence this path, so the entry age is
irrelevant. -/
theorem C1_cache_fallback (key : String) (outs : Nat → HttpOutcome)
    (cache : Cache) (v : PyVal) (hc : lookupKey cache key = some v)
    (hf : (outs 0).fails = true) :
    api_request key outs cache = (Except.ok v, cache, 1) := by
  show backoffRun key outs cache 0 3 = (Except.ok v, cache, 1)
  rw [backoffRun, api_request_once_fails_cached cache key (outs 0) v hc hf]

/-- Claim C1 witness: a cached products body is served when the fresh
attempt comes back with status 500. -/
theorem C1_cache_fallback_witness :
    api_request "get:products"
        (fun _ => HttpOutcome.response 500 (Except.ok PyVal.pynone))
        [("get:products", PyVal.pylist [PyVal.pydict []])] =
      (Except.ok (PyVal.pylist [PyVal.pydict []]),
        [("get:products", PyVal.pylist [PyVal.pydict []])], 1) :=
  C1_cache_fallback "get:products"
    (fun _ => HttpOutcome.response 500 (Except.ok PyVal.pynone))
    [("get:products", PyVal.pylist [PyVal.pydict []])]
    (PyVal.pylist [PyVal.pydict []]) rfl rfl

/-- Claim C2: on an unauthorized first response the executor performs exactly
one re-authentication and exactly one retried request, returning the second
response as-is (also when it is again a 401); a failing re-authentication
propagates with no retried request; and on every input at most one
re-authentication and at most two requests happen, so the executor never
loops. -/
theorem C2_reauth_once (r1 r2 : Resp) (e : PyErr) (h : r1.status = 401) :
    request_with_auth_interceptor r1 r2 (Except.ok ()) = (Except.ok r2, 1, 2) ∧
    request_with_auth_interceptor r1 r2 (Except.error e) = (Except.error e, 1, 1) ∧
    ∀ (s1 s2 : Resp) (a : Except PyErr Unit),
      (request_with_auth_interceptor s1 s2 a).2.1 ≤ 1 ∧
      (request_with_auth_interceptor s1 s2 a).2.2 ≤ 2 := by
  refine ⟨by simp [request_with_auth_interceptor, h],
    by simp [request_with_auth_interceptor, h], ?_⟩
  intro s1 s2 a
  by_cases h1 : s1.status = 401 <;>
    cases a <;> simp [request_with_auth_interceptor, h1]

/-- Claim C2 witness: a 401 followed by a second 401 re-authenticates once,
retries once, and hands the second 401 back to the caller. -/
theorem C2_reauth_once_witness :
    request_with_auth_interceptor ⟨401, 0⟩ ⟨401, 1⟩ (Except.ok ()) =
      (Except.ok ⟨401, 1⟩, 1, 2) :=
  (C2_reauth_once ⟨401, 0⟩ ⟨401, 1⟩ PyErr.timeoutError rfl).1

/-- Claim C6: an enqueued item with any falsy field (empty modem, zero
thermostat id, empty name, or falsy temperature) produces zero HTTP calls:
the worker drops it and moves on to the rest of the queue unchanged. -/
theorem C6_command_drop (it : CommandItem) (rest : List CommandItem)
    (durs : List Nat) (t : Nat)
    (h : it.modem = "" ∨ it.thermostat_id = 0 ∨ it.thermostat_name = "" ∨
      it.temperature.truthy = false) :
    temperature_worker (it :: rest) durs t = temperature_worker rest durs t ∧
    temperature_worker [it] durs t = [] := by
  have hf : itemTruthy it = false := by
    rcases h with h | h | h | h <;> simp [itemTruthy, h]
  constructor <;> simp [temperature_worker, hf]

/-- Claim C6 witness: an item with an empty modem issues no call. -/
theorem C6_command_drop_witness :
    temperature_worker [⟨"", 1, "living", PyVal.pyint 20⟩] [] 0 = [] :=
  (C6_command_drop ⟨"", 1, "living", PyVal.pyint 20⟩ [] [] 0 (Or.inl rfl)).2

lemma temperature_worker_time_lb (items : List CommandItem) :
    ∀ (durs : List Nat) (t : Nat) (x : WorkerCall × Nat),
      x ∈ temperature_worker items durs t → t ≤ x.2 := by
  induction items with
  | nil =>
    intro durs t x hx
    simp [temperature_worker] at hx
  | cons it rest ih =>
    intro durs t x hx
    by_cases hit : itemTruthy it
    · rw [temperature_worker, if_pos hit] at hx
      rcases List.mem_cons.mp hx with h | h
      · rw [h]
      · exact le_trans (Nat.le_add_right t _)
          (le_trans (Nat.le_add_right _ _) (ih _ _ x h))
    · rw [temperature_worker, if_neg hit] at hx
      exact ih durs t x hx

lemma temperature_worker_fifo (items : List CommandItem) :
    ∀ (durs : List Nat) (t : Nat),
      (temperature_worker items durs t).map Prod.fst =
        (items.filter itemTruthy).map itemCall := by
  induction items with
  | nil => intro durs t; simp [temperature_worker]
  | cons it rest ih =>
    intro durs t
    by_cases hit : itemTruthy it
    · rw [temperature_worker, if_pos hit, List.filter_cons_of_pos hit]
      simp [ih]
    · rw [temperature_worker, if_neg hit,
        List.filter_cons_of_neg (by simp [hit])]
      exact ih durs t

lemma temperature_worker_chain (items : List CommandItem) :
    ∀ (durs : List Nat) (t : Nat),
      List.Chain' (fun a b => a.2 + REQUEST_DELAY ≤ b.2)
        (temperature_worker items durs t) := by
  induction items with
  | nil => intro durs t; simp [temperature_worker]
  | cons it rest ih =>
    intro durs t
    by_cases hit : itemTruthy it
    · rw [temperature_worker, if_pos hit]
      refine List.chain'_cons'.mpr ⟨?_, ih _ _⟩
      intro y hy
      have hmem : y ∈ temperature_worker rest durs.tail
          (t + durs.headD 0 + REQUEST_DELAY) := List.mem_of_mem_head? hy
      have hlb := temperature_worker_time_lb rest durs.tail
        (t + durs.headD 0 + REQUEST_DELAY) y hmem
      simp only [REQUEST_DELAY] at hlb ⊢
      omega
    · rw [temperature_worker, if_neg hit]
      exact ih _ _

/-- Claim C7: in the sequential trace semantics of the single worker task,
the issued calls are exactly the truthy-filtered enqueued items in FIFO
order, and each call starts at least REQUEST_DELAY (5 seconds) after the
preceding call started, for every list of HTTP call durations. -/
theorem C7_fifo_paced (items : List CommandItem) (durs : List Nat) (t : Nat) :
    (temperature_worker items durs t).map Prod.fst =
      (items.filter itemTruthy).map itemCall ∧
    List.Chain' (fun a b => a.2 + REQUEST_DELAY ≤ b.2)
      (temperature_worker items durs t) :=
  ⟨temperature_worker_fifo items durs t, temperature_worker_chain items durs t⟩

/-- Claim C9 counterexample: a non-200 response with no cache entry is raised
as ClientError, which the backoff decorator retries, so the call makes 3
attempts rather than escaping after a single one. -/
theorem C9_counterexample :
    (api_request "get:stats"
      (fun _ => HttpOutcome.response 500 (Except.ok PyVal.pynone)) []).2.2 = 3 ∧
    (api_request "get:stats"
      (fun _ => HttpOutcome.response 500 (Except.ok PyVal.pynone)) []).2.2 ≠ 1 ∧
    (api_request "get:stats"
      (fun _ => HttpOutcome.response 500 (Except.ok PyVal.pynone)) []).1 =
      Except.error (PyErr.clientError "API request failed with status") :=
  ⟨rfl, by decide, rfl⟩

lemma backoffRun_all_fail (key : String) (outs : Nat → HttpOutcome) (e : PyErr)
    (hre : retriedErr e = true)
    (hall : ∀ j, api_request_once [] key (outs j) = (Except.error e, [])) :
    ∀ (fuel i : Nat), 0 < fuel →
      backoffRun key outs [] i fuel = (Except.error e, [], fuel) := by
  intro fuel
  induction fuel with
  | zero => intro i h; exact absurd h (by simp)
  | succ t ih =>
    intro i _
    rw [backoffRun, hall i]
    cases t with
    | zero => simp [hre]
    | succ t2 =>
      simp only [hre, Bool.true_and]
      simp only [show ((t2 + 1 : Nat) != 0) = true by simp]
      simp only [if_true]
      rw [ih (i + 1) (Nat.succ_pos t2)]

/-- Claim C9 (amended): the backoff decorator retries exactly the
ClientError/TimeoutError classes; since _api_request raises a non-200 status
as ClientError (and re-raises KeyError/ValueError as ClientError), an
HTTP-level error with no cache entry is retried to the 3-attempt ceiling
rather than escaping after a single attempt; only errors outside those
classes escape after one attempt. -/
theorem C9_backoff_retries_non200 (key1 key2 : String)
    (outs1 outs2 : Nat → HttpOutcome) (e : PyErr) (status : Nat) (body : PyVal)
    (hr : retriedErr (wrapParseErr e) = false)
    (h0 : outs1 0 = HttpOutcome.raised e) (hs : ¬ status = 200)
    (hall : ∀ i, outs2 i = HttpOutcome.response status (Except.ok body)) :
    api_request key1 outs1 [] = (Except.error (wrapParseErr e), [], 1) ∧
    (api_request key2 outs2 []).2.2 = 3 ∧
    (api_request key2 outs2 []).1 =
      Except.error (PyErr.clientError "API request failed with status") := by
  have honce : ∀ j, api_request_once [] key2 (outs2 j) =
      (Except.error (PyErr.clientError "API request failed with status"), []) := by
    intro j
    rw [hall j]
    simp [api_request_once, hs, cacheFallback, lookupKey, wrapParseErr]
  have hrun := backoffRun_all_fail key2 outs2
    (PyErr.clientError "API request failed with status") rfl honce 3 0 (by simp)
  refine ⟨?_, ?_, ?_⟩
  · show backoffRun key1 outs1 [] 0 3 = _
    rw [backoffRun, h0]
    simp [api_request_once, cacheFallback, lookupKey, hr]
  · show (backoffRun key2 outs2 [] 0 3).2.2 = 3
    rw [hrun]
  · show (backoffRun key2 outs2 [] 0 3).1 = _
    rw [hrun]

/-- Claim C9 witness: a TypeError-class failure escapes after one attempt,
while a repeated 500 is retried three times. -/
theorem C9_backoff_retries_non200_witness :
    api_request "patch:cmd" (fun _ => HttpOutcome.raised PyErr.typeError) [] =
      (Except.error (wrapParseErr PyErr.typeError), [], 1) :=
  (C9_backoff_retries_non200 "patch:cmd" "get:stats"
    (fun _ => HttpOutcome.raised PyErr.typeError)
    (fun _ => HttpOutcome.response 500 (Except.ok PyVal.pynone))
    PyErr.typeError 500 PyVal.pynone rfl rfl (by decide) (fun _ => rfl)).1

/-- True when the authenticate call raised. -/
def isRaised (r : Except PyErr Unit) : Bool :=
  match r with
  | Except.error _ => true
  | Except.ok _ => false

/-- Claim C10: authenticate raises AuthenticationError on a non-200 status,
on a network error or timeout, and on a body parse failure of those classes,
each time leaving the stored token unchanged; on a 200 response carrying an
access_token the token is replaced wholesale by that value; and on every
outcome that raises, whatever the exception, the token is unchanged. -/
theorem C10_authenticate_atomic (token j t : PyVal) (status : Nat) (b : Bool)
    (e : PyErr) (hs : ¬ status = 200)
    (hj : j.index "access_token" = Except.ok t) (he : caughtNetErr e = true) :
    authenticate token (AuthOutcome.response status (Except.ok j)) =
      (Except.error (PyErr.authenticationError "Authentication failed with status"),
        token) ∧
    authenticate token (AuthOutcome.network b) =
      (Except.error (PyErr.authenticationError "Authentication request failed"),
        token) ∧
    authenticate token (AuthOutcome.response status (Except.error e)) =
      (Except.error (PyErr.authenticationError "Authentication request failed"),
        token) ∧
    authenticate token (AuthOutcome.response 200 (Except.ok j)) =
      (Except.ok (), t) ∧
    ∀ (o : AuthOutcome), isRaised (authenticate token o).1 = true →
      (authenticate token o).2 = token := by
  refine ⟨by simp [authenticate, hs], rfl, by simp [authenticate, he],
    by simp [authenticate, hj], ?_⟩
  intro o ho
  cases o with
  | network b2 => rfl
  | response s2 jr =>
    cases jr with
    | error e2 =>
      by_cases hc : caughtNetErr e2 <;> simp [authenticate, hc]
    | ok j2 =>
      by_cases h200 : s2 = 200
      · subst h200
        cases hidx : j2.index "access_token" with
        | ok t2 =>
          rw [show authenticate token (AuthOutcome.response 200 (Except.ok j2)) =
            (Except.ok (), t2) by simp [authenticate, hidx]] at ho
          simp [isRaised] at ho
        | error e2 => simp [authenticate, hidx]
      · simp [authenticate, h200]

/-- Claim C10 witness: a 500 status raises AuthenticationError and leaves the
token untouched. -/
theorem C10_authenticate_atomic_witness :
    authenticate (PyVal.pystr "old")
        (AuthOutcome.response 500
          (Except.ok (PyVal.pydict [("access_token", PyVal.pystr "new")]))) =
      (Except.error (PyErr.authenticationError "Authentication failed with status"),
        PyVal.pystr "old") :=
  (C10_authenticate_atomic (PyVal.pystr "old")
    (PyVal.pydict [("access_token", PyVal.pystr "new")]) (PyVal.pystr "new")
    500 true PyErr.timeoutError (by decide) rfl rfl).1

end Aldes
